import Mathlib

/-!
Verification development for the ELAN 04F3:0C4C fingerprint reader PoC driver
(src/elanfp.py).  The Python source is shallowly embedded: byte strings become
`List Nat` (each entry a byte value), the USB transport is replaced by
explicitly supplied response lists, and the unbounded interaction loops become
functions over the finite list of responses the device is assumed to produce.
Raising an exception in Python is modelled by a dedicated constructor of the
result type of the function in question.
-/

/-! ## Command table (src/elanfp.py lines 49-63) -/

/-- One entry of the `COMMANDS` table: the `Command` namedtuple of the source,
with byte strings as `List Nat`. -/
structure CommandSpec where
  command : List Nat
  out_len : Nat
  in_len : Nat
  ep_out : Nat
  ep_in : Nat
deriving DecidableEq

/-- The `COMMANDS` dictionary of the source, as an association list. -/
def COMMANDS : List (String × CommandSpec) :=
  [("fw_ver",        ⟨[0x40, 0x19], 2, 2, 1, 3⟩),
   ("sensor_size",   ⟨[0x00, 0x0c], 2, 4, 1, 3⟩),
   ("verify",        ⟨[0x40, 0xff, 0x03], 3, 2, 1, 4⟩),
   ("finger_info",   ⟨[0x40, 0xff, 0x12], 4, 64, 1, 3⟩),
   ("enrolled_num",  ⟨[0x40, 0xff, 0x04], 3, 2, 1, 3⟩),
   ("enrolled_num1", ⟨[0x40, 0xff, 0x00], 3, 2, 1, 3⟩),
   ("abort",         ⟨[0x40, 0xff, 0x02], 3, 2, 1, 3⟩),
   ("commit",        ⟨[0x40, 0xff, 0x11], 72, 2, 1, 3⟩),
   ("enroll",        ⟨[0x40, 0xff, 0x01], 7, 2, 1, 4⟩),
   ("after_enroll",  ⟨[0x40, 0xff, 0x10], 3, 3, 1, 3⟩),
   ("delete",        ⟨[0x40, 0xff, 0x13], 72, 2, 1, 3⟩)]

/-- The `command` executor (src/elanfp.py lines 81-93).  The transport is
external, so the bytes the device answers are an input (`resp`).  The result
records the two non-fatal warnings (wrong outbound size, short reply) and the
response, which is returned as-is; `none` models the `KeyError` on an unknown
command name. -/
def command (cmdname : String) (payload : List Nat) (resp : List Nat) :
    Option (Bool × Bool × List Nat) :=
  match COMMANDS.lookup cmdname with
  | none => none
  | some c =>
    let cmd := c.command ++ payload
    some (decide (cmd.length ≠ c.out_len), decide (resp.length < c.in_len), resp)

/-- Timeout (ms) passed to `command` for the `verify` steps
(src/elanfp.py lines 116 and 156). -/
def verify_timeout : Nat := 5000

/-! ## Status interpreter (src/elanfp.py lines 65-74 and 96-102) -/

/-- The `ERRORS` dictionary of the source. -/
def ERRORS : List (Nat × String) :=
  [(0x41, "Move slightly downwards"),
   (0x42, "Move slightly to the right"),
   (0x43, "Move slightly upwards"),
   (0x44, "Move slightly to the left"),
   (0xfb, "Sensor is dirty or wet"),
   (0xfd, "Finger not enrolled"),
   (0xfe, "Finger area not enough"),
   (0xdd, "Maximum number of enrolled fingers reached")]

/-- Lower-case hexadecimal digit, as produced by Python `hex`. -/
def hexDigit (n : Nat) : Char :=
  if n < 10 then Char.ofNat (48 + n) else Char.ofNat (87 + n)

/-- Python `hex(n)` for byte-range values (all call sites pass a byte read
from a device response, hence a value below 256). -/
def pyHex (n : Nat) : String :=
  if n < 16 then String.mk [Char.ofNat 48, Char.ofNat 120, hexDigit n]
  else String.mk [Char.ofNat 48, Char.ofNat 120, hexDigit (n / 16), hexDigit (n % 16)]

/-- `get_error` (src/elanfp.py lines 96-102): `none` when the top nibble is
zero, otherwise the table entry or the unknown-error string. -/
def get_error (byte : Nat) : Option String :=
  if byte &&& 0xf0 = 0 then none
  else
    match ERRORS.lookup byte with
    | none => some ("Unknown error " ++ pyHex byte)
    | some s => some s

/-! ## Verify workflow (src/elanfp.py lines 153-162) -/

/-- Result of the `verify` loop.  `crashed` models the `IndexError` Python
raises when `resp[1]` is read from a response shorter than two bytes;
`outOfInput` means the supplied response list was exhausted while the loop was
still waiting (the real loop would keep polling the device forever). -/
inductive VerifyOutcome where
  | matched (fingerId : Nat) : VerifyOutcome
  | crashed : VerifyOutcome
  | outOfInput : VerifyOutcome
deriving DecidableEq

/-- The `verify` loop (src/elanfp.py lines 153-162) over the list of responses
the device produces for the successive `verify` commands: loop while the
status byte `resp[1]` has an error meaning, return `resp[1]` otherwise. -/
def verify : List (List Nat) → VerifyOutcome
  | [] => .outOfInput
  | r :: rest =>
    match r[1]? with
    | none => .crashed
    | some b => if get_error b ≠ none then verify rest else .matched b

/-! ## Enroll workflow (src/elanfp.py lines 105-150) -/

/-- Result of the enroll sampling loop.  `outOfInput` means the supplied
status list was exhausted while the loop still wanted more samples (the real
loop would keep issuing `enroll` commands). -/
inductive EnrollOutcome where
  | completed : EnrollOutcome
  | aborted : EnrollOutcome
  | outOfInput : EnrollOutcome
deriving DecidableEq

/-- The sampling loop of `enroll` (src/elanfp.py lines 127-139) over the list
of status bytes (`resp[1]`) the device produces for the successive `enroll`
commands.  Returns the list of 4-byte payloads sent (one `enroll` command per
consumed status) and the outcome: status 0 increments `attempts_done`, status
0xdd returns from `enroll` at once, any other status retries with the same
`attempts_done`. -/
def enrollLoop (fid : Nat) (done : Nat) : List Nat → List (List Nat) × EnrollOutcome
  | [] => if done < 8 then ([], .outOfInput) else ([], .completed)
  | s :: rest =>
    if done < 8 then
      if s = 0 then
        let x := enrollLoop fid (done + 1) rest
        ([fid, 8, done, 0] :: x.1, x.2)
      else if s = 0xdd then ([[fid, 8, done, 0]], .aborted)
      else
        let x := enrollLoop fid done rest
        ([fid, 8, done, 0] :: x.1, x.2)
    else ([], .completed)

/-- Number of status-0 (successful sample) entries in a status list; used to
state properties of `enrollLoop`. -/
def successCount : List Nat → Nat
  | [] => 0
  | s :: rest => successCount rest + if s = 0 then 1 else 0

/-- Python `bytes.ljust(width, fill)`: pad on the right up to `width`; a
longer input is returned unchanged (never truncated). -/
def ljust (l : List Nat) (width fill : Nat) : List Nat :=
  l ++ List.replicate (width - l.length) fill

/-- The marker byte `0xf0 | (finger_id + 5)` used by the commit and delete
payloads (src/elanfp.py lines 145, 179 and 252).  The source packs it with
`struct.pack("B", ...)`, valid for the slot ids 0-9 that occur. -/
def slotMarker (fid : Nat) : Nat := 0xf0 ||| (fid + 5)

/-- The commit payload built during enrollment (src/elanfp.py line 145):
marker byte, then the user data, right-padded with zero bytes to 69. -/
def commitPayload (fid : Nat) (user_data : List Nat) : List Nat :=
  ljust (slotMarker fid :: user_data) 69 0

/-! ## Finger info workflow (src/elanfp.py lines 165-174) -/

/-- Result of `get_finger_info`.  `err` models the `IOError` raised on a
2-byte response (carrying the interpreted status description), `oob` the
`IndexError` on a response shorter than 2 bytes, `outOfInput` exhaustion of
the supplied response list. -/
inductive FIOutcome where
  | ok (record : List Nat) : FIOutcome
  | err (msg : Option String) : FIOutcome
  | oob : FIOutcome
  | outOfInput : FIOutcome
deriving DecidableEq

/-- The `get_finger_info` loop (src/elanfp.py lines 165-174) over the list of
responses the device produces for the successive `finger_info` commands.
Returns the outcome together with the number of full `verify` rounds the loop
performed to calm the sensor (one per response whose byte 1 is 0xff, each
performed before the retry). -/
def get_finger_info : List (List Nat) → FIOutcome × Nat
  | [] => (.outOfInput, 0)
  | r :: rest =>
    match r[1]? with
    | none => (.oob, 0)
    | some b =>
      if b = 0xff then
        let x := get_finger_info rest
        (x.1, x.2 + 1)
      else if r.length = 2 then (.err (get_error b), 0)
      else (.ok r, 0)

/-- Payload of the `finger_info` command: `finger_id.to_bytes(1, "little")`
(src/elanfp.py line 167), valid for ids below 256. -/
def fingerInfoPayload (finger_id : Nat) : List Nat := [finger_id]

/-! ## Delete workflows (src/elanfp.py lines 177-191 and 246-253) -/

/-- Trace of `delete_by_id` (src/elanfp.py lines 177-180): either the info
fetch raised and the `delete` command was never sent (`infoFailed`), or the
`delete` command was sent with the given payload and answered with the given
status byte (`sent`). -/
inductive DeleteByIdTrace where
  | infoFailed (e : FIOutcome) : DeleteByIdTrace
  | sent (payload : List Nat) (status : Nat) : DeleteByIdTrace
deriving DecidableEq

/-- `delete_by_id` (src/elanfp.py lines 177-180): fetch the finger record,
then send `delete` with payload marker byte plus `record[2:]`, padded to 69
bytes.  `infoResps` are the device responses for the info fetch, `delStatus`
the status byte of the delete response. -/
def delete_by_id (fpid : Nat) (infoResps : List (List Nat)) (delStatus : Nat) :
    DeleteByIdTrace :=
  match (get_finger_info infoResps).1 with
  | .ok r => .sent (ljust (slotMarker fpid :: r.drop 2) 69 0) delStatus
  | o => .infoFailed o

/-- Device behaviour for one slot during `delete_all`: the responses for the
initial `finger_info` fetch, the status byte of the `delete` response, and the
responses for the confirmation `finger_info` fetch that `delete` performs
after a status-0 delete (src/elanfp.py lines 183-191). -/
structure SlotEnv where
  infoResps : List (List Nat)
  delStatus : Nat
  confirmResps : List (List Nat)
deriving DecidableEq

/-- Per-slot event of the `delete_all` sweep. -/
inductive SlotEvent where
  | skipped : SlotEvent
  | delFailed (payload : List Nat) (status : Nat) : SlotEvent
  | delOk (payload : List Nat) : SlotEvent
deriving DecidableEq

/-- Result of processing one slot of `delete_all` (src/elanfp.py lines
246-253 together with `delete`, lines 183-191): `crashedNoDelete` models an
exception out of the info fetch (no `delete` command sent for this slot),
`crashedAfterDelete` an exception out of the confirmation fetch performed
after a successful delete. -/
inductive SlotStep where
  | ok (ev : SlotEvent) : SlotStep
  | crashedNoDelete : SlotStep
  | crashedAfterDelete (payload : List Nat) : SlotStep
deriving DecidableEq

/-- One iteration of the `delete_all` loop body for slot `fid`
(src/elanfp.py lines 247-253): fetch the record; skip if its last byte is
0xff; otherwise send `delete` with the marker-plus-`record[2:]` payload; on
delete status 0, `delete` re-fetches the record for confirmation. -/
def processSlot (fid : Nat) (e : SlotEnv) : SlotStep :=
  match (get_finger_info e.infoResps).1 with
  | .ok r =>
    if r.getLast? = some 0xff then .ok .skipped
    else
      let p := ljust (slotMarker fid :: r.drop 2) 69 0
      if e.delStatus ≠ 0 then .ok (.delFailed p e.delStatus)
      else
        match (get_finger_info e.confirmResps).1 with
        | .ok _ => .ok (.delOk p)
        | _ => .crashedAfterDelete p
  | _ => .crashedNoDelete

/-- The `delete_all` loop from slot `fid` on.  Returns the per-slot events of
the slots that were processed and whether an exception aborted the sweep
(`true` = aborted before reaching the remaining slots). -/
def delete_all_go (fid : Nat) : List SlotEnv → List SlotEvent × Bool
  | [] => ([], false)
  | e :: rest =>
    match processSlot fid e with
    | .ok ev =>
      let x := delete_all_go (fid + 1) rest
      (ev :: x.1, x.2)
    | .crashedNoDelete => ([], true)
    | .crashedAfterDelete p => ([.delOk p], true)

/-- `delete_all` (src/elanfp.py lines 246-253): iterate slot ids 0 through 9
in order, processing each slot with `processSlot`. -/
def delete_all (envs : List SlotEnv) : List SlotEvent × Bool :=
  delete_all_go 0 (envs.take 10)

/-- The event `delete_all` produces for a slot whose info fetch returned the
record `r`: skip on trailing 0xff, otherwise delete with the marker payload,
the delete status deciding between a reported failure and a confirmed
delete. -/
def expectedSlotEvent (fid : Nat) (e : SlotEnv) (r : List Nat) : SlotEvent :=
  if r.getLast? = some 0xff then .skipped
  else if e.delStatus ≠ 0 then
    .delFailed (ljust (slotMarker fid :: r.drop 2) 69 0) e.delStatus
  else .delOk (ljust (slotMarker fid :: r.drop 2) 69 0)

/-- A slot whose interaction never raises: the info fetch yields a record,
and when a delete is actually performed and succeeds, the confirmation fetch
yields a record as well. -/
def SlotOk (e : SlotEnv) : Prop :=
  ∃ r, (get_finger_info e.infoResps).1 = .ok r ∧
    (r.getLast? ≠ some 0xff → e.delStatus = 0 →
      ∃ r2, (get_finger_info e.confirmResps).1 = .ok r2)

/-- A slot answering the info fetch with the 2-byte "sensor dirty" error
response: `get_finger_info` raises on it. -/
def dirtySlotEnv : SlotEnv := ⟨[[0x40, 0xfb]], 0, []⟩

/-- A slot holding an enrolled finger (record does not end in 0xff) whose
delete command fails with status 1. -/
def enrolledSlotEnv : SlotEnv := ⟨[[0x40, 0x00, 1, 2, 3]], 1, []⟩

/-- A slot whose record ends in 0xff: `delete_all` skips it. -/
def skipSlotEnv : SlotEnv := ⟨[[0x40, 0x00, 1, 0xff]], 0, []⟩

/-! ## Image pipeline (src/elanfp.py lines 255-281) -/

/-- The 8-bit rescale of one sample (src/elanfp.py line 279):
`int((v - minv) * 256 / diff)` with `diff = maxv - minv`.  For the byte-range
magnitudes involved the float division is exact enough that truncation of the
correctly rounded double equals natural floor division, which is used here. -/
def pixelValue (v minv maxv : Nat) : Nat :=
  (v - minv) * 256 / (maxv - minv)

/-- The normalization of the capture pipeline (src/elanfp.py lines 264-279):
min/max over the samples (min seeded with `2<<16-1 = 65536`, max with 0),
then the per-sample rescale.  `none` models the uncaught `ZeroDivisionError`
Python raises when `diff = maxv - minv` is zero (the difference is computed in
ℤ: on an empty sample list it is negative, not zero, and no division is ever
executed). -/
def normalizeImage (pixels : List Nat) : Option (List Nat) :=
  let minv := pixels.foldl (fun acc v => min acc v) 65536
  let maxv := pixels.foldl (fun acc v => max v acc) 0
  if (maxv : Int) - (minv : Int) = 0 then none
  else some (pixels.map (fun v => pixelValue v minv maxv))

/-- Pixel rescale as the spec sentence of claim C7 words it:
`round((v - min) * 256 / (max - min))`, clamped to [0, 255]. -/
def specPixelClamped (v minv maxv : Nat) : Int :=
  min 255 (max 0 (round (((v : ℚ) - minv) * 256 / ((maxv : ℚ) - minv))))

/-! # Theorems -/

/-- Claim C1: for every status byte b (0 ≤ b ≤ 255), `get_error` returns
`none` iff the top nibble of b is zero; for every other byte it returns the
fixed description from the `ERRORS` table when b is a known code, and the
string "Unknown error <hex>" otherwise — never `none`. -/
theorem C1_get_error_spec (b : Nat) (hb : b < 256) :
    (get_error b = none ↔ b &&& 0xf0 = 0) ∧
    (b &&& 0xf0 ≠ 0 →
      get_error b = some ((ERRORS.lookup b).getD ("Unknown error " ++ pyHex b))) := by
  by_cases h : b &&& 0xf0 = 0 <;> cases herr : ERRORS.lookup b <;>
    simp [get_error, h, herr]

/-- Witness for C1 at the concrete byte 0x41. -/
theorem C1_witness :
    0x41 < 256 ∧
    ((get_error 0x41 = none ↔ 0x41 &&& 0xf0 = 0) ∧
     (0x41 &&& 0xf0 ≠ 0 →
       get_error 0x41 =
         some ((ERRORS.lookup 0x41).getD ("Unknown error " ++ pyHex 0x41)))) :=
  ⟨by decide, C1_get_error_spec 0x41 (by decide)⟩

/-- Counterexample to claim C2: for a 69-byte user data the commit payload
has 70 bytes, not 69 — Python `ljust` pads but never truncates. -/
theorem C2_counterexample :
    (commitPayload 0 (List.replicate 69 1)).length ≠ 69 := by
  simp [commitPayload, ljust]

/-- Claim C2 as amended: the commit payload is the marker byte followed by
the user data right-padded with zeros; its length is `max 69 (|ud| + 1)`, so
it is exactly 69 bytes iff the user data has at most 68 bytes — longer user
data is passed through untruncated. -/
theorem C2_commit_payload_amended (fid : Nat) (ud : List Nat) :
    (commitPayload fid ud).length = max 69 (ud.length + 1) ∧
    (ud.length ≤ 68 →
      (commitPayload fid ud).length = 69 ∧
      commitPayload fid ud =
        slotMarker fid :: (ud ++ List.replicate (68 - ud.length) 0)) := by
  refine ⟨?_, fun h => ⟨?_, ?_⟩⟩
  · simp [commitPayload, ljust]
    omega
  · simp [commitPayload, ljust]
    omega
  · simp only [commitPayload, ljust, List.length_cons, List.cons_append]
    rw [show 69 - (ud.length + 1) = 68 - ud.length by omega]

/-- Witness for C2 (amended) at finger id 3 and user data [1, 2]. -/
theorem C2_witness :
    (commitPayload 3 [1, 2]).length = max 69 ([1, 2].length + 1) ∧
    (([1, 2] : List Nat).length ≤ 68 →
      (commitPayload 3 [1, 2]).length = 69 ∧
      commitPayload 3 [1, 2] =
        slotMarker 3 :: ([1, 2] ++ List.replicate (68 - [1, 2].length) 0)) :=
  C2_commit_payload_amended 3 [1, 2]

/-- Behaviour of the enroll sampling loop, generalized over the number of
attempts already done: one payload `[fid, 8, attempts_done, 0]` is sent per
consumed status, where `attempts_done` counts the status-0 entries of the
consumed prefix; at most 8 successes are ever consumed; completion means
exactly 8 successes and no 0xdd seen; abortion means the last consumed status
was 0xdd. -/
theorem enrollLoop_go_spec (fid : Nat) (ss : List Nat) : ∀ done : Nat, done ≤ 8 →
    ((enrollLoop fid done ss).1.length ≤ ss.length) ∧
    (∀ i, i < (enrollLoop fid done ss).1.length →
      (enrollLoop fid done ss).1[i]? =
        some [fid, 8, done + successCount (ss.take i), 0]) ∧
    done + successCount (ss.take (enrollLoop fid done ss).1.length) ≤ 8 ∧
    ((enrollLoop fid done ss).2 = .completed →
      done + successCount (ss.take (enrollLoop fid done ss).1.length) = 8 ∧
      ∀ s ∈ ss.take (enrollLoop fid done ss).1.length, s ≠ 0xdd) ∧
    ((enrollLoop fid done ss).2 = .aborted →
      0 < (enrollLoop fid done ss).1.length ∧
      ss[(enrollLoop fid done ss).1.length - 1]? = some 0xdd) := by
  induction ss with
  | nil =>
    intro done hdone
    by_cases h8 : done < 8 <;> simp [enrollLoop, h8, successCount] <;> omega
  | cons s rest ih =>
    intro done hdone
    by_cases h8 : done < 8
    · by_cases h0 : s = 0
      · subst h0
        obtain ⟨ih1, ih2, ih3, ih4, ih5⟩ := ih (done + 1) (by omega)
        have he : enrollLoop fid done (0 :: rest) =
            ([fid, 8, done, 0] :: (enrollLoop fid (done + 1) rest).1,
              (enrollLoop fid (done + 1) rest).2) := by
          simp [enrollLoop, h8]
        rw [he]
        refine ⟨by simpa using ih1, ?_, ?_, ?_, ?_⟩
        · intro i hi
          cases i with
          | zero => simp [successCount]
          | succ j =>
            have hj : j < (enrollLoop fid (done + 1) rest).1.length := by
              simpa using hi
            simp only [List.getElem?_cons_succ, List.take_succ_cons]
            rw [ih2 j hj]
            simp [successCount]
            omega
        · simp [successCount, List.take_succ_cons]
          omega
        · intro hc
          obtain ⟨hc1, hc2⟩ := ih4 hc
          refine ⟨by simp [successCount, List.take_succ_cons]; omega, ?_⟩
          intro t ht
          simp only [List.length_cons, List.take_succ_cons, List.mem_cons] at ht
          rcases ht with h | h
          · subst h; decide
          · exact hc2 t h
        · intro ha
          obtain ⟨hpos, hdd⟩ := ih5 ha
          refine ⟨by simp, ?_⟩
          simp only [List.length_cons]
          rw [show (enrollLoop fid (done + 1) rest).1.length + 1 - 1 =
            ((enrollLoop fid (done + 1) rest).1.length - 1) + 1 by omega,
            List.getElem?_cons_succ]
          exact hdd
      · by_cases hdd : s = 0xdd
        · subst hdd
          have he : enrollLoop fid done (0xdd :: rest) =
              ([[fid, 8, done, 0]], .aborted) := by
            simp [enrollLoop, h8, h0]
          rw [he]
          refine ⟨by simp, ?_, ?_, by simp, ?_⟩
          · intro i hi
            simp only [List.length_cons, List.length_nil] at hi
            interval_cases i
            simp [successCount]
          · simp [successCount, List.take_succ_cons]
            omega
          · intro _
            refine ⟨by simp, ?_⟩
            simp
        · obtain ⟨ih1, ih2, ih3, ih4, ih5⟩ := ih done hdone
          have he : enrollLoop fid done (s :: rest) =
              ([fid, 8, done, 0] :: (enrollLoop fid done rest).1,
                (enrollLoop fid done rest).2) := by
            simp [enrollLoop, h8, h0, hdd]
          rw [he]
          refine ⟨by simpa using ih1, ?_, ?_, ?_, ?_⟩
          · intro i hi
            cases i with
            | zero => simp [successCount]
            | succ j =>
              have hj : j < (enrollLoop fid done rest).1.length := by
                simpa using hi
              simp only [List.getElem?_cons_succ, List.take_succ_cons, successCount]
              rw [ih2 j hj]
              simp [h0]
          · simpa [successCount, List.take_succ_cons, h0] using ih3
          · intro hc
            obtain ⟨hc1, hc2⟩ := ih4 hc
            refine ⟨by simp [successCount, List.take_succ_cons, h0]; omega, ?_⟩
            intro t ht
            simp only [List.length_cons, List.take_succ_cons, List.mem_cons] at ht
            rcases ht with h | h
            · subst h; exact hdd
            · exact hc2 t h
          · intro ha
            obtain ⟨hpos, hdd2⟩ := ih5 ha
            refine ⟨by simp, ?_⟩
            simp only [List.length_cons]
            rw [show (enrollLoop fid done rest).1.length + 1 - 1 =
              ((enrollLoop fid done rest).1.length - 1) + 1 by omega,
              List.getElem?_cons_succ]
            exact hdd2
    · have he : enrollLoop fid done (s :: rest) = ([], .completed) := by
        simp [enrollLoop, h8]
      rw [he]
      simp [successCount]
      omega

/-- Claim C3: the enroll sampling loop sends one `enroll` command with
4-byte payload `[finger_id, 8, attempts_done, 0]` per status consumed, where
`attempts_done` is the number of status-0 responses seen so far (so a failed
sample is retried at the same index); it never consumes more than 8
successes; it completes exactly when 8 successes were consumed with no 0xdd
among them; and it aborts exactly at a 0xdd status, which is then the last
status consumed. -/
theorem C3_enroll_sampling_spec (fid : Nat) (ss : List Nat) :
    ((enrollLoop fid 0 ss).1.length ≤ ss.length) ∧
    (∀ i, i < (enrollLoop fid 0 ss).1.length →
      (enrollLoop fid 0 ss).1[i]? = some [fid, 8, successCount (ss.take i), 0]) ∧
    successCount (ss.take (enrollLoop fid 0 ss).1.length) ≤ 8 ∧
    ((enrollLoop fid 0 ss).2 = .completed →
      successCount (ss.take (enrollLoop fid 0 ss).1.length) = 8 ∧
      ∀ s ∈ ss.take (enrollLoop fid 0 ss).1.length, s ≠ 0xdd) ∧
    ((enrollLoop fid 0 ss).2 = .aborted →
      0 < (enrollLoop fid 0 ss).1.length ∧
      ss[(enrollLoop fid 0 ss).1.length - 1]? = some 0xdd) := by
  have h := enrollLoop_go_spec fid ss 0 (by omega)
  simpa using h

/-- Witness for C3: one failed sample (status 0x41) then eight successes;
the second command sent still carries attempts_done = 0 (the retry did not
advance the index), and the loop completes. -/
theorem C3_witness :
    (enrollLoop 2 0 [0x41, 0, 0, 0, 0, 0, 0, 0, 0]).1[1]? = some [2, 8, 0, 0] :=
  (C3_enroll_sampling_spec 2 [0x41, 0, 0, 0, 0, 0, 0, 0, 0]).2.1 1 (by decide)

/-- Claim C4: the verify workflow keeps looping (with a 5000 ms timeout per
round) while the status byte of the response has an error meaning, and on the
first response whose status byte has no error meaning it returns that byte as
the matched finger id. -/
theorem C4_verify_spec (pre : List (List Nat))
    (hpre : ∀ p ∈ pre, ∃ b, p[1]? = some b ∧ get_error b ≠ none)
    (r : List Nat) (b : Nat) (hb : r[1]? = some b) (hok : get_error b = none)
    (rest : List (List Nat)) :
    verify_timeout = 5000 ∧ verify (pre ++ r :: rest) = .matched b := by
  refine ⟨rfl, ?_⟩
  induction pre with
  | nil => simp [verify, hb, hok]
  | cons p pre ih =>
    obtain ⟨b1, hb1, he1⟩ := hpre p (by simp)
    have ih2 := ih (fun q hq => hpre q (by simp [hq]))
    simpa [verify, hb1, he1] using ih2

/-- Witness for C4: two 0x44 ("move slightly to the left") hint responses,
then a response with byte 1 equal to 7, yield finger id 7. -/
theorem C4_witness : verify [[0x00, 0x44], [0x00, 0x44], [0x00, 7]] = .matched 7 :=
  (C4_verify_spec [[0x00, 0x44], [0x00, 0x44]]
    (by
      intro p hp
      simp only [List.mem_cons, List.not_mem_nil, or_false] at hp
      rcases hp with h | h <;> subst h <;> exact ⟨0x44, rfl, by decide⟩)
    [0x00, 7] 7 rfl (by decide) []).2

/-- Claim C5: `get_finger_info` sends the 1-byte id; every response whose
byte 1 is 0xff triggers one full verify round followed by a retry (the 0xff
check coming before the length check, so even a 2-byte angry response is
retried, arbitrarily often); the first response with byte 1 ≠ 0xff then
either fails with the interpreted status description when it is exactly 2
bytes long, or is returned whole as the finger record. -/
theorem C5_get_finger_info_spec (finger_id : Nat) (hid : finger_id < 256)
    (pre : List (List Nat)) (hpre : ∀ p ∈ pre, p[1]? = some 0xff)
    (r : List Nat) (b : Nat) (hb : r[1]? = some b) (hbne : b ≠ 0xff)
    (rest : List (List Nat)) :
    (fingerInfoPayload finger_id).length = 1 ∧
    get_finger_info (pre ++ r :: rest) =
      ((if r.length = 2 then FIOutcome.err (get_error b) else FIOutcome.ok r),
        pre.length) := by
  refine ⟨rfl, ?_⟩
  induction pre with
  | nil => by_cases h2 : r.length = 2 <;> simp [get_finger_info, hb, hbne, h2]
  | cons p pre ih =>
    have hp := hpre p (by simp)
    have ih2 := ih (fun q hq => hpre q (by simp [hq]))
    simp [get_finger_info, hp, ih2]

/-- Witness for C5 matching the spec scenario: one angry response
`[0x40, 0xff, ...]` causes exactly one verify round, then the retried fetch
succeeds with the full record. -/
theorem C5_witness :
    (fingerInfoPayload 3).length = 1 ∧
    get_finger_info [[0x40, 0xff, 0, 0], [0x40, 0, 1, 2]] =
      ((if ([0x40, 0, 1, 2] : List Nat).length = 2 then FIOutcome.err (get_error 0)
        else FIOutcome.ok [0x40, 0, 1, 2]), 1) :=
  C5_get_finger_info_spec 3 (by decide) [[0x40, 0xff, 0, 0]] (by decide)
    [0x40, 0, 1, 2] 0 rfl (by decide) []

/-- Claim C6 (evaluating the code at the failing input): on a degenerate
capture with zero dynamic range — here a uniform 3x2 frame — the
normalization hits an unguarded division by zero (`none` in the model,
an uncaught `ZeroDivisionError` in the source) instead of failing with an
explicit `DegenerateCapture` error. -/
theorem C6_degenerate_capture_crash :
    normalizeImage [5, 5, 5, 5, 5, 5] = none := by decide

/-- Counterexample to claim C7: at the maximal sample (v = max = 1000 with
min = 0) the code computes 256, while round-then-clamp-to-[0,255] as the
claim states it gives 255 — the code neither rounds nor clamps. -/
theorem C7_counterexample :
    (pixelValue 1000 0 1000 : Int) ≠ specPixelClamped 1000 0 1000 := by
  norm_num [pixelValue, specPixelClamped, round_eq]

/-- Claim C7 as amended: for min ≤ v ≤ max with min < max the 8-bit output
value is the floor (truncation, not rounding) of (v - min) * 256 / (max -
min), with no clamping; it is bounded by 256, the maximal sample mapping to
exactly 256 (one past the 8-bit range); the sample 500 with min = 0,
max = 1000 still maps to 128. -/
theorem C7_pixel_amended (v minv maxv : Nat)
    (h1 : minv ≤ v) (h2 : v ≤ maxv) (h3 : minv < maxv) :
    pixelValue v minv maxv = ⌊((v : ℚ) - minv) * 256 / ((maxv : ℚ) - minv)⌋₊ ∧
    pixelValue v minv maxv ≤ 256 ∧
    pixelValue maxv minv maxv = 256 ∧
    pixelValue 500 0 1000 = 128 := by
  have hd : 0 < maxv - minv := Nat.sub_pos_of_lt h3
  refine ⟨?_, ?_, ?_, by decide⟩
  · rw [show ((v : ℚ) - minv) = ((v - minv : ℕ) : ℚ) from (Nat.cast_sub h1).symm,
      show ((maxv : ℚ) - minv) = ((maxv - minv : ℕ) : ℚ) from (Nat.cast_sub h3.le).symm,
      show ((v - minv : ℕ) : ℚ) * 256 = (((v - minv) * 256 : ℕ) : ℚ) by push_cast; ring,
      Nat.floor_div_nat, Nat.floor_natCast]
    rfl
  · calc pixelValue v minv maxv = (v - minv) * 256 / (maxv - minv) := rfl
      _ ≤ (maxv - minv) * 256 / (maxv - minv) := by gcongr
      _ = 256 := Nat.mul_div_cancel_left 256 hd
  · show (maxv - minv) * 256 / (maxv - minv) = 256
    exact Nat.mul_div_cancel_left 256 hd

/-- Witness for C7 (amended) at v = 500, min = 0, max = 1000. -/
theorem C7_witness :
    (0 ≤ 500 ∧ 500 ≤ 1000 ∧ 0 < 1000) ∧
    (pixelValue 500 0 1000 =
        ⌊(((500 : Nat) : ℚ) - ((0 : Nat) : ℚ)) * 256 /
          (((1000 : Nat) : ℚ) - ((0 : Nat) : ℚ))⌋₊ ∧
      pixelValue 500 0 1000 ≤ 256 ∧
      pixelValue 1000 0 1000 = 256 ∧
      pixelValue 500 0 1000 = 128) :=
  ⟨by omega, C7_pixel_amended 500 0 1000 (by decide) (by decide) (by decide)⟩

/-- Claim C8: `delete_by_id` on a finger whose info fetch answers with the
2-byte error form carrying status 0xfd fails with the interpreted description
"Finger not enrolled", and the `delete` command is never sent (the trace is
`infoFailed`, not `sent`). -/
theorem C8_delete_by_id_not_enrolled (x fpid delStatus : Nat) :
    delete_by_id fpid [[x, 0xfd]] delStatus =
      .infoFailed (.err (some "Finger not enrolled")) := by
  simp [delete_by_id, get_finger_info, get_error]
  decide

/-- Witness for C8 at finger id 5, matching the spec scenario. -/
theorem C8_witness :
    delete_by_id 5 [[0x40, 0xfd]] 0 =
      .infoFailed (.err (some "Finger not enrolled")) :=
  C8_delete_by_id_not_enrolled 0x40 5 0

/-- A slot whose interactions never raise is processed without exception,
producing exactly the skip/delete event determined by its record and delete
status. -/
theorem processSlot_ok (fid : Nat) (e : SlotEnv) (r : List Nat)
    (hr : (get_finger_info e.infoResps).1 = .ok r)
    (hconf : r.getLast? ≠ some 0xff → e.delStatus = 0 →
      ∃ r2, (get_finger_info e.confirmResps).1 = .ok r2) :
    processSlot fid e = .ok (expectedSlotEvent fid e r) := by
  unfold processSlot expectedSlotEvent
  rw [hr]
  by_cases hlast : r.getLast? = some 0xff
  · simp [hlast]
  · by_cases hds : e.delStatus = 0
    · obtain ⟨r2, hr2⟩ := hconf hlast hds
      simp [hlast, hds, hr2]
    · simp [hlast, hds]

/-- The `delete_all` sweep over slots that never raise: no abort, one event
per slot, and the event of slot i is the expected one for its record, built
with the marker byte of slot id fid + i. -/
theorem delete_all_go_ok (envs : List SlotEnv) : ∀ fid : Nat,
    (∀ e ∈ envs, SlotOk e) →
    (delete_all_go fid envs).2 = false ∧
    (delete_all_go fid envs).1.length = envs.length ∧
    (∀ i e2, envs[i]? = some e2 →
      ∀ r, (get_finger_info e2.infoResps).1 = .ok r →
        (delete_all_go fid envs).1[i]? = some (expectedSlotEvent (fid + i) e2 r)) := by
  induction envs with
  | nil =>
    intro fid _
    simp [delete_all_go]
  | cons e rest ih =>
    intro fid h
    obtain ⟨r, hr, hconf⟩ := h e (by simp)
    have hps := processSlot_ok fid e r hr hconf
    obtain ⟨ih1, ih2, ih3⟩ := ih (fid + 1) (fun q hq => h q (by simp [hq]))
    have he : delete_all_go fid (e :: rest) =
        (expectedSlotEvent fid e r :: (delete_all_go (fid + 1) rest).1,
          (delete_all_go (fid + 1) rest).2) := by
      simp [delete_all_go, hps]
    rw [he]
    refine ⟨ih1, by simp [ih2], ?_⟩
    intro i e2 hi r2 hr2
    cases i with
    | zero =>
      simp only [List.getElem?_cons_zero, Option.some.injEq] at hi
      subst hi
      rw [hr] at hr2
      cases hr2
      simp
    | succ j =>
      simp only [List.getElem?_cons_succ] at hi ⊢
      rw [ih3 j e2 hi r2 hr2]
      rw [show fid + (j + 1) = fid + 1 + j by omega]

/-- Counterexample to claim C9: with slot 0 answering the info fetch with
the 2-byte "sensor is dirty" error form and the other nine slots holding
enrolled fingers, `delete_all` aborts at slot 0 with no event recorded — the
other nine slots are never swept, so the sweep does not continue through all
10 slots regardless of per-slot failures. -/
theorem C9_counterexample :
    delete_all (dirtySlotEnv :: enrolledSlotEnv :: List.replicate 8 enrolledSlotEnv) =
      ([], true) := by decide

/-- Claim C9 as amended: `delete_all` iterates slot ids 0 through 9 in
order; for each slot whose info fetch yields a record it skips the slot when
the record ends in 0xff and otherwise sends `delete` with the
marker-plus-`record[2:]` payload padded to 69 bytes, continuing past
per-slot delete-command failures; but a slot whose info fetch (or
post-delete confirmation fetch) raises aborts the rest of the sweep, so the
full 10-slot sweep is only guaranteed when no fetch raises. -/
theorem C9_delete_all_spec (envs : List SlotEnv) (h10 : envs.length = 10)
    (hok : ∀ e ∈ envs, SlotOk e) :
    (delete_all envs).2 = false ∧
    (delete_all envs).1.length = 10 ∧
    (∀ i e2, envs[i]? = some e2 →
      ∀ r, (get_finger_info e2.infoResps).1 = .ok r →
        (delete_all envs).1[i]? = some (expectedSlotEvent i e2 r)) := by
  have htake : envs.take 10 = envs := by
    rw [← h10]
    exact List.take_length envs
  unfold delete_all
  rw [htake]
  obtain ⟨h1, h2, h3⟩ := delete_all_go_ok envs 0 hok
  exact ⟨h1, by rw [h2, h10],
    fun i e2 hi r hr => by simpa using h3 i e2 hi r hr⟩

/-- Witness for C9 (amended): ten slots that all report an unenrolled record
(trailing 0xff) are all processed, each being skipped. -/
theorem C9_witness :
    (delete_all (List.replicate 10 skipSlotEnv)).1.length = 10 :=
  (C9_delete_all_spec (List.replicate 10 skipSlotEnv) (by decide)
    (by
      intro e he
      have he2 : e = skipSlotEnv := List.eq_of_mem_replicate he
      subst he2
      exact ⟨[0x40, 0x00, 1, 0xff], rfl, fun hn _ => (hn (by decide)).elim⟩)).2.1

/-- Counterexample to claim C10: the verify workflow reads the status byte
without a bounds check, so a 1-byte transport response makes the read go out
of bounds (`crashed` is the model of the `IndexError` on `resp[1]`). -/
theorem C10_counterexample :
    verify [[0x40]] = .crashed ∧ ([0x40] : List Nat)[1]? = none := by decide

/-- Claim C10 as amended: when the transport returns fewer bytes than
`in_len`, the command executor emits the non-fatal short-reply warning and
returns the short buffer unchanged; but the verify workflow does not index
defensively — on a response shorter than 2 bytes its status-byte read is out
of bounds. -/
theorem C10_short_response_amended (resp : List Nat) (h : resp.length < 2) :
    command "verify" [] resp = some (false, true, resp) ∧
    verify [resp] = .crashed := by
  have hl : COMMANDS.lookup "verify" = some ⟨[0x40, 0xff, 0x03], 3, 2, 1, 4⟩ := rfl
  constructor
  · simp [command, hl, h]
  · have hn : resp[1]? = none := List.getElem?_eq_none (by omega)
    simp [verify, hn]

/-- Witness for C10 (amended) at the concrete 1-byte response [0x41]. -/
theorem C10_witness :
    ([0x41] : List Nat).length < 2 ∧
    (command "verify" [] [0x41] = some (false, true, [0x41]) ∧
     verify [[0x41]] = .crashed) :=
  ⟨by decide, C10_short_response_amended [0x41] (by decide)⟩
